import Mathlib

/-!
Shallow embedding of the WhatsApp bridge (`src/server.js`): the identity
resolver (LID → phone map), the retransmission message store, the connection
lifecycle handlers, the inbound-message pipeline, the webhook dispatcher and
the HTTP routes `/send` and `/resolve-numbers`.

JavaScript objects used as string-keyed dictionaries are embedded as
insertion-ordered association lists with unique keys (`objSet` updates in
place or appends, matching JS property-assignment and `Map.set` semantics).
Optional / possibly-`undefined` values are `Option`; JS string truthiness
(`""` and `undefined` are falsy) is made explicit via `jsOr` / `jsTruthy`.
-/

namespace Bridge

/-- JS `a || b` where `a` is a possibly-undefined string and `b` a string:
the left operand is used when it is truthy (present and nonempty). -/
def jsOr : Option String → String → String
  | some s, d => if s = "" then d else s
  | none, d => d

/-- JS truthiness of a possibly-undefined string. -/
def jsTruthy : Option String → Bool
  | some s => s ≠ ""
  | none => false

/-- JS template-literal rendering of a possibly-undefined string
(`undefined` prints as the string "undefined"). -/
def jsTemplate : Option String → String
  | none => "undefined"
  | some s => s

/-- Property assignment `o[k] = v` on a JS object / `Map.set`: update the
existing entry in place (keeping its position) or append a new one. -/
def objSet {α : Type} (m : List (String × α)) (k : String) (v : α) :
    List (String × α) :=
  match m with
  | [] => [(k, v)]
  | (k0, v0) :: rest =>
      if k0 = k then (k, v) :: rest else (k0, v0) :: objSet rest k v

/-- `Map.delete(k)`: remove the entry for `k`. -/
def objDelete {α : Type} (m : List (String × α)) (k : String) :
    List (String × α) :=
  m.filter (fun p => p.1 ≠ k)

/-- JS `s.split(sep)` for a single-character separator, over the character
list: split on every occurrence; the empty string yields one empty group. -/
def splitChar (sep : Char) : List Char → List (List Char)
  | [] => [[]]
  | c :: cs =>
      let r := splitChar sep cs
      if c = sep then [] :: r
      else
        match r with
        | [] => [[c]]
        | g :: gs => (c :: g) :: gs

/-- JS `s.endsWith(suffix)`. -/
def jsEndsWith (s suffix : String) : Bool :=
  suffix.toList.isSuffixOf s.toList

/-- JS `s.substring(0, n)`. -/
def jsTake (s : String) (n : Nat) : String :=
  (s.toList.take n).asString

/-- `s.split("@")[0]`, the part of a JID before the separator. -/
def jidLocal (s : String) : String :=
  ((splitChar '@' s.toList).headD []).asString

/-- `p.replace("+", "")`: JS string-argument `replace` removes only the
first occurrence. -/
def dropFirstPlus : List Char → List Char
  | [] => []
  | c :: cs => if c = '+' then cs else c :: dropFirstPlus cs

/-- `phoneNumber.replace("+", "")` followed by the global-regex removal of
whitespace and dashes: drop the first plus sign, then filter out all
whitespace and dash characters. -/
def normalizePhone (p : String) : String :=
  ((dropFirstPlus p.toList).filter
    (fun c => ¬ (c.isWhitespace ∨ c = '-'))).asString

/-- The in-memory LID → phone table (`lidToPhone`), a JS object keyed by
LID. -/
abbrev LidMap := List (String × String)

/-- A contact record as delivered by the protocol library's contact events
(`contacts.set` / `contacts.update` / `contacts.upsert`). -/
structure Contact where
  id : Option String
  phoneNumber : Option String

/-- One iteration of the `absorbContacts` loop: when the contact has a
LID-form id and a truthy phone number, write the normalized phone into the
table whenever the stored value differs, flagging the change. -/
def absorbOne (acc : LidMap × Bool) (c : Contact) : LidMap × Bool :=
  let (m, changed) := acc
  if jsTruthy c.id ∧ jsEndsWith (jsTemplate c.id) "@lid" ∧ jsTruthy c.phoneNumber then
    let lid := jidLocal (jsTemplate c.id)
    let phone := normalizePhone (jsTemplate c.phoneNumber)
    if m.lookup lid ≠ some phone then (objSet m lid phone, true)
    else (m, changed)
  else (m, changed)

/-- `absorbContacts(contacts)` from `src/server.js` lines 178–191: absorb a
batch of contact records into the LID → phone table; the returned flag is
`changed` (when true the source schedules `saveLidMap()`). -/
def absorbContacts (m : LidMap) (contacts : List Contact) : LidMap × Bool :=
  contacts.foldl absorbOne (m, false)

/-- The mutable session state of the bridge (`connectionStatus`,
`qrDataUrl`, `connectedPhone`, `lastError`). -/
structure SessionState where
  connectionStatus : String
  qrDataUrl : String
  connectedPhone : String
  lastError : String

/-- `DisconnectReason.loggedOut` from the protocol library (Baileys): the
explicit sign-out status code, numerically 401. -/
def DisconnectReason_loggedOut : Nat := 401

/-- Side effects of the connection-close handler. -/
inductive CloseAction : Type
  | scheduleReconnect (delayMs : Nat)
  | wipeSessionDir
deriving DecidableEq, Repr

/-- Rendering of the optional close status code inside the template literal
of the transient error message. -/
def statusCodeStr : Option Nat → String
  | none => "undefined"
  | some n => toString n

/-- The `connection === "close"` branch of the `connection.update` handler
(`src/server.js` lines 210–234): read the status code, decide
`shouldReconnect`, reset the session fields, and either schedule one
reconnect after 3000 ms or set the terminal message and wipe the session
directory. -/
def handleClose (st : SessionState) (statusCode : Option Nat) :
    SessionState × List CloseAction :=
  let shouldReconnect := statusCode ≠ some DisconnectReason_loggedOut
  let st1 : SessionState :=
    { st with connectionStatus := "disconnected", qrDataUrl := "",
              connectedPhone := "" }
  if shouldReconnect then
    ({ st1 with lastError :=
        "Disconnected (code " ++ statusCodeStr statusCode ++ "), reconnecting..." },
     [CloseAction.scheduleReconnect 3000])
  else
    ({ st1 with lastError :=
        "Logged out. Delete sessions/ folder and restart to re-link." },
     [CloseAction.wipeSessionDir])

/-- `me?.id?.split(":")[0] || me?.id?.split("@")[0] || ""`: extraction of
the connected phone from the library's self identifier on `open`. -/
def phoneOfMe (meId : Option String) : String :=
  jsOr (meId.map (fun s => ((splitChar ':' s.toList).headD []).asString))
    (jsOr (meId.map (fun s => jidLocal s)) "")

/-- The `connection === "open"` branch of the `connection.update` handler
(`src/server.js` lines 236–244). -/
def handleOpen (st : SessionState) (meId : Option String) : SessionState :=
  { st with connectionStatus := "connected", qrDataUrl := "", lastError := "",
            connectedPhone := phoneOfMe meId }

/-- The key object of a message (`msg.key`). -/
structure MsgKey where
  remoteJid : Option String
  fromMe : Bool
  participant : Option String
  id : Option String

/-- `MAX_STORE_SIZE`. -/
def MAX_STORE_SIZE : Nat := 5000

/-- Serialized store key: the template literal of `remoteJid` and `id`
joined by a colon. -/
def serializeKey (k : MsgKey) : String :=
  jsTemplate k.remoteJid ++ ":" ++ jsTemplate k.id

/-- The in-memory `messageStore`, a JS `Map` (insertion-ordered, unique
keys) from serialized key to message content. -/
abbrev MessageStore (α : Type) := List (String × α)

/-- `storeMessage(key, message)` from `src/server.js` lines 113–120: set
the entry, then if the size exceeds `MAX_STORE_SIZE` delete the entry of
the first (oldest-inserted) key. -/
def storeMessage {α : Type} (store : MessageStore α) (key : MsgKey)
    (message : α) : MessageStore α :=
  let id := serializeKey key
  let s := objSet store id message
  if MAX_STORE_SIZE < s.length then
    match s with
    | [] => s
    | p :: _ => objDelete s p.1
  else s

/-- `getMessage(key)`: look the serialized key up, absence is `none`. -/
def getMessage {α : Type} (store : MessageStore α) (key : MsgKey) :
    Option α :=
  store.lookup (serializeKey key)

/-- The content variants of a message the pipeline inspects
(`msg.message?.conversation`, `msg.message?.extendedTextMessage?.text`). -/
structure MsgContent where
  conversation : Option String
  extendedTextMessageText : Option String

/-- An inbound message of a `messages.upsert` event. -/
structure InboundMsg where
  key : MsgKey
  message : Option MsgContent
  pushName : Option String

/-- The environment the inbound pipeline reads: the connected phone, the
LID → phone table, the library's cached contact directory (`sock.contacts`,
JID → optional `phoneNumber`; an undefined directory is the empty list),
the legacy per-identifier reverse mapping files on disk (LID → parsed file
content; entries only for files that exist and parse), and `WEBHOOK_URL`. -/
structure Env where
  connectedPhone : String
  lidToPhone : LidMap
  contacts : List (String × Option String)
  diskReverse : List (String × String)
  webhookUrl : String

/-- Result of the LID resolution chain: the reported phone, the updated
table, and whether `saveLidMap()` was invoked. -/
structure ResolveOut where
  phone : String
  lidToPhone : LidMap
  saveScheduled : Bool
deriving DecidableEq, Repr

/-- The LID resolution chain of the `messages.upsert` handler
(`src/server.js` lines 283–312): for a LID-form JID try the in-memory
table, then `sock.contacts` (on hit normalize, record and schedule a save),
then the legacy on-disk reverse record (on hit record without scheduling a
save); otherwise fall back to the raw identifier. -/
def resolvePhone (env : Env) (rawId fromJid : String) (isLid : Bool) :
    ResolveOut :=
  if isLid then
    if jsTruthy (env.lidToPhone.lookup rawId) then
      ⟨jsOr (env.lidToPhone.lookup rawId) "", env.lidToPhone, false⟩
    else
      let contactPhone := (env.contacts.lookup fromJid).getD none
      if jsTruthy contactPhone then
        let phone := normalizePhone (jsTemplate contactPhone)
        ⟨phone, objSet env.lidToPhone rawId phone, true⟩
      else
        match env.diskReverse.lookup rawId with
        | some mapped =>
            if mapped ≠ "" then
              ⟨mapped, objSet env.lidToPhone rawId mapped, false⟩
            else ⟨rawId, env.lidToPhone, false⟩
        | none => ⟨rawId, env.lidToPhone, false⟩
  else ⟨rawId, env.lidToPhone, false⟩

/-- The JSON payload of a webhook notification, exactly the fields the
bridge sends. -/
structure WebhookEvent where
  «from» : String
  from_lid : String
  from_jid : String
  chat_id : String
  from_name : String
  message : String
  message_id : String
deriving DecidableEq, Repr

/-- The self-chat test of the `messages.upsert` handler (`src/server.js`
lines 260–266): the chat id equals the connected phone, or the JID is
LID-form and the table maps it to the connected phone (strict equality, so
an absent entry never matches). -/
def isSelfChat (env : Env) (msg : InboundMsg) : Bool :=
  let remoteJid := jsOr msg.key.remoteJid ""
  let remoteId := jsOr (some (jidLocal remoteJid)) ""
  let isLidJid := jsEndsWith remoteJid "@lid"
  remoteId = env.connectedPhone ∨
    (isLidJid ∧ env.lidToPhone.lookup remoteId = some env.connectedPhone)

/-- Text extraction of the `messages.upsert` handler (`src/server.js`
lines 272–275). -/
def textOf (msg : InboundMsg) : String :=
  jsOr (msg.message.bind MsgContent.conversation)
    (jsOr (msg.message.bind MsgContent.extendedTextMessageText) "")

/-- The per-message body of the `messages.upsert` loop (`src/server.js`
lines 258–333), after the unconditional `storeMessage` pass: suppress
non-self-chat `fromMe` messages, drop messages without text, resolve the
sender phone, and when `WEBHOOK_URL` is truthy emit the webhook payload.
Returns the emitted payload (if any), the updated LID table and whether a
save was scheduled. -/
def processMessage (env : Env) (msg : InboundMsg) :
    Option WebhookEvent × LidMap × Bool :=
  if msg.key.fromMe ∧ ¬ isSelfChat env msg then (none, env.lidToPhone, false)
  else
    let text := textOf msg
    if text = "" then (none, env.lidToPhone, false)
    else
      let «from» := jsOr msg.key.remoteJid ""
      let rawId := jidLocal «from»
      let isLid := jsEndsWith «from» "@lid"
      let r := resolvePhone env rawId «from» isLid
      let chatId := «from»
      let fromJid := jsOr msg.key.participant «from»
      let fromName := jsOr msg.pushName ""
      if env.webhookUrl ≠ "" then
        (some { «from» := r.phone,
                from_lid := if isLid then rawId else "",
                from_jid := fromJid,
                chat_id := chatId,
                from_name := fromName,
                message := text,
                message_id := jsOr msg.key.id "" },
         r.lidToPhone, r.saveScheduled)
      else (none, r.lidToPhone, r.saveScheduled)

/-- The outbound HTTP request that `sendWebhook(payload)` issues
(`src/server.js` lines 341–374): a single POST whose JSON body is the
payload, with `Content-Type: application/json` and the `X-Webhook-Secret`
header exactly when `API_KEY` is truthy. -/
structure WebhookRequest where
  method : String
  contentType : String
  secretHeader : Option String
  payload : WebhookEvent
deriving DecidableEq, Repr

/-- `sendWebhook(payload)`: build the single POST request. -/
def sendWebhook (apiKey : String) (payload : WebhookEvent) : WebhookRequest :=
  { method := "POST",
    contentType := "application/json",
    secretHeader := if apiKey ≠ "" then some apiKey else none,
    payload := payload }

/-- What the webhook delivery code does once the exchange finishes: log, or
nothing. There is no retry and no propagation to the caller. -/
inductive DeliveryAction : Type
  | logError (line : String)
  | nothing
deriving DecidableEq, Repr

/-- The response callback of `sendWebhook`: log when the status is an
error (`>= 400`), otherwise do nothing. -/
def onWebhookResponse (statusCode : Nat) (data : String) : DeliveryAction :=
  if 400 ≤ statusCode then
    DeliveryAction.logError
      ("Webhook failed: HTTP " ++ toString statusCode ++ " " ++
        (jsTake data 200))
  else DeliveryAction.nothing

/-- The transport-error callback of `sendWebhook`: log only. -/
def onWebhookError (errMessage : String) : DeliveryAction :=
  DeliveryAction.logError ("Webhook error: " ++ errMessage)

/-- The result object the send helpers return and the `/send` route
serializes: `{error}` or `{messageId}` (JS object, absent fields are
`undefined`). -/
structure ApiResult where
  error : Option String := none
  messageId : Option String := none
deriving DecidableEq, Repr

/-- The key of a sent message as returned by the library
(`result?.key`). -/
structure SentKey where
  remoteJid : Option String
  id : Option String

/-- The value `await sock.sendMessage(...)` resolves to: the message key
(possibly absent) and the sent content. -/
structure LibSendResult (α : Type) where
  key : Option SentKey
  message : α

/-- The library's send call as an oracle: it either resolves to a result
(possibly `undefined`) or throws with an error message. -/
abbrev SendOracle (α : Type) := Except String (Option (LibSendResult α))

/-- The common tail of `sendMessage` / `sendMedia`: on a thrown error
return `{error}`; on success store the sent content when a key is present
and return `{messageId: result?.key?.id || ""}`. -/
def completeSend {α : Type} (store : MessageStore α) (oracle : SendOracle α) :
    ApiResult × MessageStore α :=
  match oracle with
  | Except.error e => ({ error := some e }, store)
  | Except.ok result =>
      let store1 :=
        match result with
        | some r =>
            match r.key with
            | some k =>
                storeMessage store
                  { remoteJid := k.remoteJid, fromMe := true,
                    participant := none, id := k.id } r.message
            | none => store
        | none => store
      ({ messageId :=
          some (jsOr (result.bind (fun r => r.key.bind SentKey.id)) "") },
       store1)

/-- `sendMessage(to, text)` from `src/server.js` lines 380–395: refuse when
there is no socket or the status is not "connected", otherwise run the
library send and store the sent content on success. -/
def sendMessage {α : Type} (sockPresent : Bool) (connectionStatus : String)
    (store : MessageStore α) (oracle : SendOracle α) :
    ApiResult × MessageStore α :=
  if ¬ sockPresent ∨ connectionStatus ≠ "connected" then
    ({ error := some "Not connected to WhatsApp" }, store)
  else completeSend store oracle

/-- The outbound media content `sendMedia` builds (`src/server.js` lines
402–417). -/
inductive MediaContent : Type
  | image (url : String) (caption : Option String)
  | video (url : String) (caption : Option String)
  | document (url : String) (mimetype fileName : String)
      (caption : Option String)
deriving DecidableEq, Repr

/-- `caption || undefined`. -/
def captionOpt (caption : String) : Option String :=
  if caption = "" then none else some caption

/-- The media-content construction of `sendMedia`: image and video carry
the URL and optional caption; anything else becomes a document whose file
name is the last URL segment, defaulting to "document". -/
def mediaContentOf (mediaUrl mediaType caption : String) : MediaContent :=
  if mediaType = "image" then MediaContent.image mediaUrl (captionOpt caption)
  else if mediaType = "video" then
    MediaContent.video mediaUrl (captionOpt caption)
  else
    let fileName := jsOr (some (((splitChar '/' mediaUrl.toList).getLastD []).asString)) "document"
    MediaContent.document mediaUrl "application/octet-stream" fileName
      (captionOpt caption)

/-- `sendMedia(to, mediaUrl, mediaType, caption)` from `src/server.js`
lines 397–428: same connection guard and store-on-success tail as
`sendMessage`, with the constructed media content. -/
def sendMedia {α : Type} (sockPresent : Bool) (connectionStatus : String)
    (store : MessageStore α) (oracle : SendOracle α) :
    ApiResult × MessageStore α :=
  if ¬ sockPresent ∨ connectionStatus ≠ "connected" then
    ({ error := some "Not connected to WhatsApp" }, store)
  else completeSend store oracle

/-- `parseBody(req)` (`src/server.js` lines 434–447) over the raw request
body, with `JSON.parse` plus field extraction as the oracle `parse`: an
empty body resolves to the empty object, an unparseable body rejects with
"Invalid JSON". -/
def parseBody {β : Type} (emptyObj : β) (parse : String → Option β)
    (body : String) : Except String β :=
  if body = "" then Except.ok emptyObj
  else
    match parse body with
    | some v => Except.ok v
    | none => Except.error "Invalid JSON"

/-- The fields of a `/send` request body. -/
structure SendBody where
  «to» : Option String := none
  text : Option String := none
  message : Option String := none
  media_url : Option String := none
  media_type : Option String := none
  caption : Option String := none

/-- An HTTP response of the `/send` route: status code and the JSON body,
which is either `{error}` (validation failures) or the serialized
`ApiResult`. -/
structure SendResponse where
  status : Nat
  body : ApiResult
deriving DecidableEq, Repr

/-- The `POST /send` route (`src/server.js` lines 494–529): parse the
body, require a truthy `to`, dispatch to `sendMedia` when `media_url` is
truthy and otherwise to `sendMessage` with `data.text || data.message`,
requiring it nonempty; serialize `{error}` results as 500 and others as
200; a parse rejection is a 400 with the thrown message. -/
def handleSend {α : Type} (parsed : Except String SendBody)
    (sockPresent : Bool) (connectionStatus : String) (store : MessageStore α)
    (oracle : SendOracle α) : SendResponse × MessageStore α :=
  match parsed with
  | Except.error e => ({ status := 400, body := { error := some e } }, store)
  | Except.ok data =>
      if ¬ jsTruthy data.«to» then
        ({ status := 400, body := { error := some "Missing 'to' field" } },
         store)
      else if jsTruthy data.media_url then
        let (result, store1) :=
          sendMedia sockPresent connectionStatus store oracle
        (if jsTruthy result.error then { status := 500, body := result }
         else { status := 200, body := result }, store1)
      else
        let text := jsOr data.text (jsOr data.message "")
        if text = "" then
          ({ status := 400, body := { error := some "Missing 'text' field" } },
           store)
        else
          let (result, store1) :=
            sendMessage sockPresent connectionStatus store oracle
          (if jsTruthy result.error then { status := 500, body := result }
           else { status := 200, body := result }, store1)

/-- The `phones` field of a `/resolve-numbers` body: absent (so
`data.phones || []` yields the empty array), an array of strings, or some
other truthy non-array value. -/
inductive PhonesField : Type
  | absent
  | arr (phones : List String)
  | other

/-- `data.phones || []` followed by the `Array.isArray` test: `some` is
the array to iterate, `none` means not an array. -/
def phonesOf : PhonesField → Option (List String)
  | PhonesField.absent => some []
  | PhonesField.arr phones => some phones
  | PhonesField.other => none

/-- One entry of the array `sock.onWhatsApp` resolves to. -/
structure WaEntry where
  existsFlag : Bool
  jid : String

/-- The directory-lookup oracle: for a phone, `sock.onWhatsApp` either
throws or resolves to a possibly-undefined array of entries. -/
abbrev WaOracle := String → Except String (Option (List WaEntry))

/-- The per-phone value recorded into `results`. -/
inductive PhoneRes : Type
  | resolved (jid : String) (isLid : Bool)
  | noJid
  | err (e : String)
deriving DecidableEq, Repr

/-- The per-phone result, a function of that phone's lookup alone:
`{jid, isLid}` when the first entry exists, `{jid: null, isLid: false}`
when the array is undefined, empty or the first entry does not exist, and
`{error}` when the lookup throws. -/
def perPhoneResult (lookup : Except String (Option (List WaEntry))) :
    PhoneRes :=
  match lookup with
  | Except.error e => PhoneRes.err e
  | Except.ok none => PhoneRes.noJid
  | Except.ok (some []) => PhoneRes.noJid
  | Except.ok (some (j :: _)) =>
      if j.existsFlag then PhoneRes.resolved j.jid (jsEndsWith j.jid "@lid")
      else PhoneRes.noJid

/-- One iteration of the `/resolve-numbers` loop (`src/server.js` lines
547–565): record the per-phone result and, when the returned JID is
LID-form and differs from the stored mapping, overwrite the table entry and
count a new mapping. -/
def resolveStep (oracle : WaOracle)
    (acc : List (String × PhoneRes) × LidMap × Nat) (phone : String) :
    List (String × PhoneRes) × LidMap × Nat :=
  let (results, m, n) := acc
  match oracle phone with
  | Except.error e => (objSet results phone (PhoneRes.err e), m, n)
  | Except.ok none => (objSet results phone PhoneRes.noJid, m, n)
  | Except.ok (some []) => (objSet results phone PhoneRes.noJid, m, n)
  | Except.ok (some (j :: _)) =>
      if j.existsFlag then
        let jid := j.jid
        let jidId := jidLocal jid
        let isLid := jsEndsWith jid "@lid"
        let results1 := objSet results phone (PhoneRes.resolved jid isLid)
        if isLid ∧ m.lookup jidId ≠ some phone then
          (results1, objSet m jidId phone, n + 1)
        else (results1, m, n)
      else (objSet results phone PhoneRes.noJid, m, n)

/-- The JSON body of a `/resolve-numbers` response: an error, or the
resolved map plus `total_mappings`. -/
inductive ResolveRespBody : Type
  | errorResp (e : String)
  | okResp (resolved : List (String × PhoneRes)) (total_mappings : Nat)
deriving DecidableEq, Repr

/-- A `/resolve-numbers` response with its updated LID table and whether
`saveLidMap()` ran. -/
structure ResolveOutcome where
  status : Nat
  body : ResolveRespBody
  lidToPhone : LidMap
  saveScheduled : Bool
deriving DecidableEq, Repr

/-- The `POST /resolve-numbers` route (`src/server.js` lines 532–574):
parse the body; 400 unless `phones` is a nonempty array; 503 unless a
socket exists and the status is "connected"; otherwise run the per-phone
loop, schedule a save when new mappings were recorded, and answer 200 with
the results and the table size. -/
def handleResolveNumbers (parsed : Except String PhonesField)
    (sockPresent : Bool) (connectionStatus : String) (m : LidMap)
    (oracle : WaOracle) : ResolveOutcome :=
  match parsed with
  | Except.error e =>
      { status := 400, body := ResolveRespBody.errorResp e, lidToPhone := m,
        saveScheduled := false }
  | Except.ok data =>
      match phonesOf data with
      | none =>
          { status := 400,
            body := ResolveRespBody.errorResp "Missing 'phones' array",
            lidToPhone := m, saveScheduled := false }
      | some phones =>
          if phones.length = 0 then
            { status := 400,
              body := ResolveRespBody.errorResp "Missing 'phones' array",
              lidToPhone := m, saveScheduled := false }
          else if ¬ sockPresent ∨ connectionStatus ≠ "connected" then
            { status := 503,
              body := ResolveRespBody.errorResp "Not connected to WhatsApp",
              lidToPhone := m, saveScheduled := false }
          else
            let (results, m1, newMappings) :=
              phones.foldl (resolveStep oracle) ([], m, 0)
            { status := 200,
              body := ResolveRespBody.okResp results m1.length,
              lidToPhone := m1, saveScheduled := 0 < newMappings }

/-- Following the spec's words for the `/resolve-numbers` success case:
"each phone is looked up independently and the 200 response maps each phone
to either `{jid, isLid}` or a per-phone `{error}`" — the results object in
which every phone is mapped to a value computed from that phone's lookup
alone. Compared against the loop of `handleResolveNumbers`. -/
def specIndependentResults (oracle : WaOracle) (phones : List String)
    (results : List (String × PhoneRes)) : List (String × PhoneRes) :=
  phones.foldl (fun acc p => objSet acc p (perPhoneResult (oracle p))) results

/-- A store entry key for index `i` in the concrete at-capacity store:
`i` repetitions of 'k' followed by ":m", so distinct indices give distinct
keys by a length argument. -/
def witKey (i : Nat) : String := String.mk (List.replicate i 'k' ++ [':', 'm'])

/-- The 4999 younger entries of a concrete store at capacity. -/
def bigTail : MessageStore Nat :=
  (List.range 4999).map (fun i => (witKey (i + 1), i + 1))

/-- A concrete store holding exactly `MAX_STORE_SIZE` entries with distinct
keys, oldest entry first. -/
def bigStore : MessageStore Nat := (witKey 0, 0) :: bigTail

/-!  Helper lemmas about the association-list object operations.  -/


theorem lookup_objSet_self {α : Type} (m : List (String × α)) (k : String) (v : α) :
    (objSet m k v).lookup k = some v := by
  induction m with
  | nil => simp [objSet, List.lookup_cons]
  | cons p rest ih =>
      obtain ⟨k0, v0⟩ := p
      by_cases h : k0 = k
      · simp [objSet, h, List.lookup_cons]
      · simp only [objSet, if_neg h, List.lookup_cons,
          beq_false_of_ne (Ne.symm h)]
        simpa using ih

theorem objSet_of_lookup_none {α : Type} (m : List (String × α)) (k : String) (v : α)
    (h : m.lookup k = none) : objSet m k v = m ++ [(k, v)] := by
  induction m with
  | nil => simp [objSet]
  | cons p rest ih =>
      obtain ⟨k0, v0⟩ := p
      by_cases hk : k = k0
      · simp [List.lookup_cons, hk] at h
      · simp only [List.lookup_cons, beq_false_of_ne hk] at h
        simp [objSet, Ne.symm hk, ih h]

theorem length_objSet_le {α : Type} (m : List (String × α)) (k : String) (v : α) :
    (objSet m k v).length ≤ m.length + 1 := by
  induction m with
  | nil => simp [objSet]
  | cons p rest ih =>
      obtain ⟨k0, v0⟩ := p
      by_cases h : k0 = k
      · simp [objSet, h]
      · simp only [objSet, if_neg h, List.length_cons]
        omega

theorem length_objSet_of_isSome {α : Type} (m : List (String × α)) (k : String) (v : α)
    (h : (m.lookup k).isSome) : (objSet m k v).length = m.length := by
  induction m with
  | nil => simp [List.lookup] at h
  | cons p rest ih =>
      obtain ⟨k0, v0⟩ := p
      by_cases hk : k0 = k
      · simp [objSet, hk]
      · simp only [List.lookup_cons, beq_false_of_ne (Ne.symm hk)] at h
        simp [objSet, hk, ih h]

theorem map_fst_objSet_of_isSome {α : Type} (m : List (String × α)) (k : String) (v : α)
    (h : (m.lookup k).isSome) : (objSet m k v).map Prod.fst = m.map Prod.fst := by
  induction m with
  | nil => simp [List.lookup] at h
  | cons p rest ih =>
      obtain ⟨k0, v0⟩ := p
      by_cases hk : k0 = k
      · simp [objSet, hk]
      · simp only [List.lookup_cons, beq_false_of_ne (Ne.symm hk)] at h
        simp [objSet, hk, ih h]

theorem lookup_cons_split {α : Type} (k0 : String) (v0 : α) (rest : List (String × α))
    (a : String) (h : ((k0, v0) :: rest).lookup a = none) :
    a ≠ k0 ∧ rest.lookup a = none := by
  by_cases hk : a = k0
  · simp [List.lookup_cons, hk] at h
  · simp only [List.lookup_cons, beq_false_of_ne hk] at h
    exact ⟨hk, h⟩


theorem length_objDelete_head {α : Type} (p : String × α) (rest : List (String × α)) :
    (objDelete (p :: rest) p.1).length ≤ rest.length := by
  simp only [objDelete, List.filter_cons]
  rw [if_neg (by simp)]
  exact List.length_filter_le _ _

theorem objDelete_head_of_fresh {α : Type} (k0 : String) (v0 : α)
    (rest : List (String × α)) (h : ∀ q ∈ rest, q.1 ≠ k0) :
    objDelete ((k0, v0) :: rest) k0 = rest := by
  simp only [objDelete, List.filter_cons]
  rw [if_neg (by simp)]
  exact List.filter_eq_self.mpr (by intro a ha; simpa using h a ha)


theorem lookup_append_none {α : Type} (l1 l2 : List (String × α)) (k : String)
    (h1 : l1.lookup k = none) (h2 : l2.lookup k = none) :
    (l1 ++ l2).lookup k = none := by
  induction l1 with
  | nil => simpa using h2
  | cons p rest ih =>
      obtain ⟨k0, v0⟩ := p
      obtain ⟨hne, hrest⟩ := lookup_cons_split k0 v0 rest k h1
      rw [List.cons_append]
      simp only [List.lookup_cons, beq_false_of_ne hne]
      exact ih hrest

theorem witKey_data (i : Nat) :
    (witKey i).data = List.replicate i 'k' ++ [':', 'm'] := rfl

theorem witKey_inj {a b : Nat} (h : witKey a = witKey b) : a = b := by
  have hd := congrArg String.data h
  rw [witKey_data, witKey_data] at hd
  have hl := congrArg List.length hd
  simpa using hl

theorem witKey_ne_wanew (j : Nat) : witKey j ≠ "wa:new" := by
  intro he
  have hd := congrArg String.data he
  rw [witKey_data] at hd
  have hl := congrArg List.length hd
  simp at hl
  subst hl
  exact absurd he (by decide)

theorem bigTail_lookup_wanew_none : List.lookup "wa:new" bigTail = none := by
  have main : ∀ n : Nat,
      List.lookup "wa:new"
        (((List.range n).map (fun i => (witKey (i + 1), i + 1))) :
          MessageStore Nat) = none := by
    intro n
    induction n with
    | zero => simp [List.lookup]
    | succ n ih =>
        rw [List.range_succ, List.map_append]
        apply lookup_append_none _ _ _ ih
        simp only [List.map_cons, List.map_nil, List.lookup_cons,
          beq_false_of_ne (fun h => witKey_ne_wanew (n + 1) h.symm)]
        rfl
  exact main 4999

theorem bigStore_lookup_wanew_none : List.lookup "wa:new" bigStore = none := by
  simp only [bigStore, List.lookup_cons,
    beq_false_of_ne (fun h => witKey_ne_wanew 0 h.symm)]
  exact bigTail_lookup_wanew_none

theorem bigTail_keys_fresh : ∀ q ∈ bigTail, q.1 ≠ witKey 0 := by
  intro q hq
  obtain ⟨i, _, rfl⟩ := List.mem_map.mp hq
  intro h
  exact absurd (witKey_inj h) (by omega)

theorem bigStore_length : bigStore.length = MAX_STORE_SIZE := by
  simp [bigStore, bigTail, MAX_STORE_SIZE]


/-- Claim C2: on every connection-close event the state becomes
disconnected; for the explicit sign-out code the terminal message is set
and the only side effect is wiping the credential directory (no reconnect
is scheduled); for any other status code the transient message is set and
exactly one re-invocation of the startup sequence is scheduled after a
fixed 3000 ms delay. -/
theorem close_event_policy (st : SessionState) (code : Option Nat) :
    (handleClose st code).1.connectionStatus = "disconnected" ∧
    (code = some DisconnectReason_loggedOut →
      (handleClose st code).1.lastError =
          "Logged out. Delete sessions/ folder and restart to re-link." ∧
        (handleClose st code).2 = [CloseAction.wipeSessionDir]) ∧
    (code ≠ some DisconnectReason_loggedOut →
      (handleClose st code).1.lastError =
          "Disconnected (code " ++ statusCodeStr code ++ "), reconnecting..." ∧
        (handleClose st code).2 = [CloseAction.scheduleReconnect 3000]) := by
  by_cases h : code = some DisconnectReason_loggedOut <;>
    simp [handleClose, h]

/-- Claim C2 witness: a concrete sign-out close (code 401) and a concrete
transient close (code 428). -/
theorem close_event_policy_witness :
    (handleClose ⟨"connected", "", "555", ""⟩ (some 401)).2 =
        [CloseAction.wipeSessionDir] ∧
      (handleClose ⟨"connected", "", "555", ""⟩ (some 428)).2 =
        [CloseAction.scheduleReconnect 3000] :=
  ⟨((close_event_policy ⟨"connected", "", "555", ""⟩ (some 401)).2.1 rfl).2,
   ((close_event_policy ⟨"connected", "", "555", ""⟩ (some 428)).2.2
     (by decide)).2⟩

/-- Claim C1 is false on the code: with LID "999" already mapped to phone
"111", absorbing a contact-sync record pairing LID "999" with phone "222"
changes the entry to "222" — an existing mapping is overwritten, not only
gaps filled. -/
theorem identity_first_write_counterexample :
    List.lookup "999" ([("999", "111")] : LidMap) = some "111" ∧
      (absorbContacts [("999", "111")]
          [⟨some "999@lid", some "222"⟩]).1.lookup "999" = some "222" ∧
      ("111" : String) ≠ "222" := by decide

/-- Claim C1 (amended): contact-sync absorption and the resolve-numbers
loop are last-observation-wins — after absorbing a LID contact the table
maps that LID to the normalized observed phone, and after a resolve-numbers
step whose lookup returns an existing LID JID the table maps that LID to
the queried phone, in both cases regardless of any previously stored value;
the inbound-message resolution chain, by contrast, never changes a truthy
existing entry. -/
theorem identity_last_write_wins :
    (∀ (m : LidMap) (c : Contact),
      jsTruthy c.id = true → jsEndsWith (jsTemplate c.id) "@lid" = true →
      jsTruthy c.phoneNumber = true →
      (absorbContacts m [c]).1.lookup (jidLocal (jsTemplate c.id)) =
        some (normalizePhone (jsTemplate c.phoneNumber))) ∧
    (∀ (oracle : WaOracle) (results : List (String × PhoneRes)) (m : LidMap)
        (n : Nat) (phone : String) (j : WaEntry) (js : List WaEntry),
      oracle phone = Except.ok (some (j :: js)) → j.existsFlag = true →
      jsEndsWith j.jid "@lid" = true →
      (resolveStep oracle (results, m, n) phone).2.1.lookup
          (jidLocal j.jid) = some phone) ∧
    (∀ (env : Env) (rawId fromJid : String),
      jsTruthy (env.lidToPhone.lookup rawId) = true →
      (resolvePhone env rawId fromJid true).lidToPhone = env.lidToPhone) := by
  refine ⟨?_, ?_, ?_⟩
  · intro m c h1 h2 h3
    simp only [absorbContacts, List.foldl_cons, List.foldl_nil, absorbOne]
    rw [if_pos ⟨h1, h2, h3⟩]
    by_cases hd :
        m.lookup (jidLocal (jsTemplate c.id)) =
          some (normalizePhone (jsTemplate c.phoneNumber))
    · rw [if_neg (by simpa using hd)]
      exact hd
    · rw [if_pos (by simpa using hd)]
      exact lookup_objSet_self _ _ _
  · intro oracle results m n phone j js ho he hl
    simp only [resolveStep, ho, he, if_true]
    by_cases hd : m.lookup (jidLocal j.jid) = some phone
    · rw [if_neg (by simp [hl, hd])]
      exact hd
    · rw [if_pos (by simp [hl, hd])]
      exact lookup_objSet_self _ _ _
  · intro env rawId fromJid h
    simp [resolvePhone, h]

/-- Claim C1 witness for the amended statement: overwriting absorption of a
concrete differing contact, a concrete resolve-numbers step onto a
differing stored entry, and a table-hit resolution that leaves the table
unchanged. -/
theorem identity_last_write_wins_witness :
    (absorbContacts [("999", "111")]
        [⟨some "999@lid", some "222"⟩]).1.lookup "999" = some "222" ∧
      (resolveStep
          (fun _ => Except.ok (some [⟨true, "999@lid"⟩]))
          ([], [("999", "111")], 0) "222").2.1.lookup "999" = some "222" ∧
      (resolvePhone ⟨"555", [("999", "111")], [], [], ""⟩ "999" "999@lid"
          true).lidToPhone = [("999", "111")] :=
  ⟨identity_last_write_wins.1 [("999", "111")] ⟨some "999@lid", some "222"⟩
      (by decide) (by decide) (by decide),
   identity_last_write_wins.2.1 (fun _ => Except.ok (some [⟨true, "999@lid"⟩]))
      [] [("999", "111")] 0 "222" ⟨true, "999@lid"⟩ [] rfl rfl (by decide),
   identity_last_write_wins.2.2 ⟨"555", [("999", "111")], [], [], ""⟩ "999"
      "999@lid" (by decide)⟩



/-- Claim C3: after every `storeMessage` the store holds at most
`MAX_STORE_SIZE` (5000) entries; a `storeMessage` of a fresh key on a store
exactly at capacity (whose oldest key occurs only once) evicts exactly the
single oldest-inserted entry and appends the new one (strict FIFO by
insertion order); a `storeMessage` of an already-present key is the
in-place overwrite `objSet`, preserving the key sequence — no eviction. -/
theorem store_capacity_fifo :
    (∀ (α : Type) (store : MessageStore α) (key : MsgKey) (message : α),
      store.length ≤ MAX_STORE_SIZE →
      (storeMessage store key message).length ≤ MAX_STORE_SIZE) ∧
    (∀ (α : Type) (k0 : String) (v0 : α) (rest : MessageStore α)
        (key : MsgKey) (message : α),
      ((k0, v0) :: rest).length = MAX_STORE_SIZE →
      ((k0, v0) :: rest).lookup (serializeKey key) = none →
      (∀ q ∈ rest, q.1 ≠ k0) →
      storeMessage ((k0, v0) :: rest) key message =
        rest ++ [(serializeKey key, message)]) ∧
    (∀ (α : Type) (store : MessageStore α) (key : MsgKey) (message : α),
      (store.lookup (serializeKey key)).isSome →
      store.length ≤ MAX_STORE_SIZE →
      storeMessage store key message =
          objSet store (serializeKey key) message ∧
        (storeMessage store key message).map Prod.fst =
          store.map Prod.fst) := by
  refine ⟨?_, ?_, ?_⟩
  · intro α store key message hle
    have hlen := length_objSet_le store (serializeKey key) message
    simp only [storeMessage]
    by_cases hgt :
        MAX_STORE_SIZE < (objSet store (serializeKey key) message).length
    · rw [if_pos hgt]
      rcases hobj : objSet store (serializeKey key) message with _ | ⟨p, srest⟩
      · simp
      · rw [hobj] at hlen hgt
        show (objDelete (p :: srest) p.1).length ≤ MAX_STORE_SIZE
        have hd := length_objDelete_head p srest
        simp only [List.length_cons] at hlen hgt
        omega
    · rw [if_neg hgt]
      omega
  · intro α k0 v0 rest key message hlen hfresh hkeys
    obtain ⟨hne, _⟩ := lookup_cons_split k0 v0 rest (serializeKey key) hfresh
    have happ := objSet_of_lookup_none ((k0, v0) :: rest) (serializeKey key)
      message hfresh
    simp only [storeMessage, happ, List.cons_append]
    rw [if_pos (by
      simp only [List.length_cons, List.length_append, List.length_singleton]
      simp only [List.length_cons] at hlen
      omega)]
    apply objDelete_head_of_fresh
    intro q hq
    rcases List.mem_append.mp hq with hq1 | hq2
    · exact hkeys q hq1
    · have : q = (serializeKey key, message) := by simpa using hq2
      rw [this]
      exact hne
  · intro α store key message hsome hle
    have hl := length_objSet_of_isSome store (serializeKey key) message hsome
    have heq : storeMessage store key message =
        objSet store (serializeKey key) message := by
      simp only [storeMessage]
      rw [if_neg (by omega)]
    exact ⟨heq, by rw [heq]; exact map_fst_objSet_of_isSome _ _ _ hsome⟩

/-- Claim C3 witness: the capacity bound on a put into the empty store, the
exact FIFO eviction on a put of a fresh key into a concrete store of 5000
distinct-key entries, and the eviction-free in-place overwrite of a present
key. -/
theorem store_capacity_fifo_witness :
    (storeMessage ([] : MessageStore Nat)
        ⟨some "a", false, none, some "1"⟩ 5).length ≤ MAX_STORE_SIZE ∧
      storeMessage bigStore ⟨some "wa", false, none, some "new"⟩ 7 =
        bigTail ++ [("wa:new", 7)] ∧
      (storeMessage [("a:1", 10), ("b:2", 20)]
          ⟨some "a", false, none, some "1"⟩ 99).map Prod.fst =
        [("a:1", 10), ("b:2", 20)].map Prod.fst :=
  ⟨store_capacity_fifo.1 Nat [] ⟨some "a", false, none, some "1"⟩ 5
      (by decide),
   store_capacity_fifo.2.1 Nat (witKey 0) 0 bigTail
      ⟨some "wa", false, none, some "new"⟩ 7 bigStore_length
      bigStore_lookup_wanew_none bigTail_keys_fresh,
   (store_capacity_fifo.2.2 Nat [("a:1", 10), ("b:2", 20)]
      ⟨some "a", false, none, some "1"⟩ 99 (by decide) (by decide)).2⟩



/-- Claim C4 is false on the code as stated: here is a self-sent message
whose chat equals the connected phone (the self-chat condition holds), yet
no webhook event is emitted, because its content carries no extractable
text and no webhook URL is configured — the claimed "if and only if" needs
those two extra conditions. -/
theorem self_chat_iff_counterexample :
    isSelfChat ⟨"555", [], [], [], ""⟩
        ⟨⟨some "555@s.whatsapp.net", true, none, some "M"⟩,
          some ⟨none, none⟩, none⟩ = true ∧
      (processMessage ⟨"555", [], [], [], ""⟩
          ⟨⟨some "555@s.whatsapp.net", true, none, some "M"⟩,
            some ⟨none, none⟩, none⟩).1 = none := by decide

/-- Claim C4 (amended): for every inbound message, a webhook event is
emitted if and only if (when the message is self-sent) the chat identifier
equals the connected phone or is a LID mapping to it, and the message has
a nonempty extractable text body, and a webhook URL is configured;
non-self-sent messages are surfaced under just the latter two
conditions. -/
theorem self_chat_gate (env : Env) (msg : InboundMsg) :
    (processMessage env msg).1.isSome = true ↔
      ((msg.key.fromMe = true → isSelfChat env msg = true) ∧
        textOf msg ≠ "" ∧ env.webhookUrl ≠ "") := by
  by_cases h1 : msg.key.fromMe ∧ ¬ isSelfChat env msg
  · simp only [processMessage, if_pos h1]
    simp only [Option.isSome_none, Bool.false_eq_true, false_iff]
    intro hc
    exact h1.2 (hc.1 h1.1)
  · have himp : msg.key.fromMe = true → isSelfChat env msg = true := by
      intro hf
      by_contra hns
      exact h1 ⟨hf, hns⟩
    have hcond : ¬ (msg.key.fromMe = true ∧ isSelfChat env msg = false) := by
      rintro ⟨hf, hs⟩
      exact h1 ⟨hf, by simp [hs]⟩
    by_cases h2 : textOf msg = ""
    · simp [processMessage, hcond, h2]
    · by_cases h3 : env.webhookUrl = ""
      · simp [processMessage, hcond, h2, h3]
      · simp [processMessage, hcond, h2, h3]
        exact himp

/-- Claim C5: the LID resolution chain tries the in-memory table first
(table and persistence untouched), then the protocol library's cached
contact directory (on hit: normalize, populate the table, schedule a save),
then the legacy on-disk per-identifier record (on hit: populate the table,
no immediate persistence call), and otherwise falls back to reporting the
opaque identifier itself; concretely, an unresolved "999@lid" under
connected phone "15551234567" emits a webhook event with from "999" and
from_lid "999". -/
theorem lid_resolution_chain :
    (∀ (env : Env) (rawId fromJid : String),
      jsTruthy (env.lidToPhone.lookup rawId) = true →
      resolvePhone env rawId fromJid true =
        ⟨jsOr (env.lidToPhone.lookup rawId) "", env.lidToPhone, false⟩) ∧
    (∀ (env : Env) (rawId fromJid : String),
      jsTruthy (env.lidToPhone.lookup rawId) = false →
      jsTruthy ((env.contacts.lookup fromJid).getD none) = true →
      resolvePhone env rawId fromJid true =
        ⟨normalizePhone (jsTemplate ((env.contacts.lookup fromJid).getD none)),
          objSet env.lidToPhone rawId
            (normalizePhone (jsTemplate ((env.contacts.lookup fromJid).getD none))),
          true⟩) ∧
    (∀ (env : Env) (rawId fromJid mapped : String),
      jsTruthy (env.lidToPhone.lookup rawId) = false →
      jsTruthy ((env.contacts.lookup fromJid).getD none) = false →
      env.diskReverse.lookup rawId = some mapped → mapped ≠ "" →
      resolvePhone env rawId fromJid true =
        ⟨mapped, objSet env.lidToPhone rawId mapped, false⟩) ∧
    (∀ (env : Env) (rawId fromJid : String),
      jsTruthy (env.lidToPhone.lookup rawId) = false →
      jsTruthy ((env.contacts.lookup fromJid).getD none) = false →
      (env.diskReverse.lookup rawId).getD "" = "" →
      resolvePhone env rawId fromJid true = ⟨rawId, env.lidToPhone, false⟩) ∧
    processMessage ⟨"15551234567", [], [], [], "http://example.test/hook"⟩
        ⟨⟨some "999@lid", false, none, some "MSG1"⟩,
          some ⟨some "hello", none⟩, none⟩ =
      (some ⟨"999", "999", "999@lid", "999@lid", "", "hello", "MSG1"⟩, [],
        false) := by
  refine ⟨?_, ?_, ?_, ?_, by decide⟩
  · intro env rawId fromJid h
    simp [resolvePhone, h]
  · intro env rawId fromJid h1 h2
    simp [resolvePhone, h1, h2]
  · intro env rawId fromJid mapped h1 h2 h3 h4
    simp [resolvePhone, h1, h2, h3, h4]
  · intro env rawId fromJid h1 h2 h3
    rcases hd : env.diskReverse.lookup rawId with _ | m
    · simp [resolvePhone, h1, h2, hd]
    · rw [hd] at h3
      simp at h3
      subst h3
      simp [resolvePhone, h1, h2, hd]

/-- Claim C5 witness: one concrete resolution through each step of the
chain — table hit, contact-directory hit, legacy-record hit, and the
fallback to the raw identifier. -/
theorem lid_resolution_chain_witness :
    resolvePhone ⟨"p", [("9", "111")], [], [], ""⟩ "9" "9@lid" true =
        ⟨"111", [("9", "111")], false⟩ ∧
      resolvePhone ⟨"p", [], [("9@lid", some "+1 23")], [], ""⟩ "9" "9@lid"
          true = ⟨"123", [("9", "123")], true⟩ ∧
      resolvePhone ⟨"p", [], [], [("9", "777")], ""⟩ "9" "9@lid" true =
        ⟨"777", [("9", "777")], false⟩ ∧
      resolvePhone ⟨"p", [], [], [], ""⟩ "9" "9@lid" true =
        ⟨"9", [], false⟩ :=
  ⟨lid_resolution_chain.1 ⟨"p", [("9", "111")], [], [], ""⟩ "9" "9@lid"
      (by decide),
   lid_resolution_chain.2.1 ⟨"p", [], [("9@lid", some "+1 23")], [], ""⟩ "9"
      "9@lid" (by decide) (by decide),
   lid_resolution_chain.2.2.1 ⟨"p", [], [], [("9", "777")], ""⟩ "9" "9@lid"
      "777" (by decide) (by decide) (by decide) (by decide),
   lid_resolution_chain.2.2.2.1 ⟨"p", [], [], [], ""⟩ "9" "9@lid"
      (by decide) (by decide) (by decide)⟩



theorem sendMessage_not_connected {α : Type} (sockPresent : Bool)
    (connectionStatus : String) (store : MessageStore α)
    (oracle : SendOracle α)
    (h : ¬ sockPresent = true ∨ connectionStatus ≠ "connected") :
    sendMessage sockPresent connectionStatus store oracle =
      ({ error := some "Not connected to WhatsApp" }, store) := by
  simp only [sendMessage]
  exact if_pos h

theorem sendMedia_not_connected {α : Type} (sockPresent : Bool)
    (connectionStatus : String) (store : MessageStore α)
    (oracle : SendOracle α)
    (h : ¬ sockPresent = true ∨ connectionStatus ≠ "connected") :
    sendMedia sockPresent connectionStatus store oracle =
      ({ error := some "Not connected to WhatsApp" }, store) := by
  simp only [sendMedia]
  exact if_pos h

/-- Claim C6: POST /send answers 400 "Missing 'to' field" when `to` is
absent or empty, 400 "Missing 'text' field" when `to` is present but
neither text/message nor media_url is, and 500 with error "Not connected to
WhatsApp" when the body is valid but the session is not connected; in all
three cases the message store is unchanged. -/
theorem send_route_validation :
    (∀ (α : Type) (data : SendBody) (sockPresent : Bool)
        (connectionStatus : String) (store : MessageStore α)
        (oracle : SendOracle α),
      jsTruthy data.«to» = false →
      handleSend (Except.ok data) sockPresent connectionStatus store oracle =
        ({ status := 400, body := { error := some "Missing 'to' field" } },
         store)) ∧
    (∀ (α : Type) (data : SendBody) (sockPresent : Bool)
        (connectionStatus : String) (store : MessageStore α)
        (oracle : SendOracle α),
      jsTruthy data.«to» = true → jsTruthy data.media_url = false →
      jsOr data.text (jsOr data.message "") = "" →
      handleSend (Except.ok data) sockPresent connectionStatus store oracle =
        ({ status := 400, body := { error := some "Missing 'text' field" } },
         store)) ∧
    (∀ (α : Type) (data : SendBody) (sockPresent : Bool)
        (connectionStatus : String) (store : MessageStore α)
        (oracle : SendOracle α),
      jsTruthy data.«to» = true →
      (jsTruthy data.media_url = true ∨
        jsOr data.text (jsOr data.message "") ≠ "") →
      (¬ sockPresent = true ∨ connectionStatus ≠ "connected") →
      handleSend (Except.ok data) sockPresent connectionStatus store oracle =
        ({ status := 500,
           body := { error := some "Not connected to WhatsApp" } },
         store)) := by
  refine ⟨?_, ?_, ?_⟩
  · intro α data sockPresent connectionStatus store oracle h
    simp [handleSend, h]
  · intro α data sockPresent connectionStatus store oracle h1 h2 h3
    simp [handleSend, h1, h2, h3]
  · intro α data sockPresent connectionStatus store oracle h1 h2 h3
    by_cases hm : jsTruthy data.media_url = true
    · simp only [handleSend]
      rw [if_neg (by simp [h1]), if_pos hm,
        sendMedia_not_connected _ _ _ _ h3]
      simp [jsTruthy]
    · have hm' : jsTruthy data.media_url = false := by
        cases hq : jsTruthy data.media_url
        · rfl
        · exact absurd hq hm
      have ht : jsOr data.text (jsOr data.message "") ≠ "" := by
        rcases h2 with h2 | h2
        · exact absurd h2 hm
        · exact h2
      simp only [handleSend]
      rw [if_neg (by simp [h1]), if_neg (by simp [hm']), if_neg ht,
        sendMessage_not_connected _ _ _ _ h3]
      simp [jsTruthy]

/-- Claim C6 witness: a missing `to`, a `to` without text or media, and a
valid body while disconnected, each on a concrete store. -/
theorem send_route_validation_witness :
    handleSend (Except.ok {}) true "connected" ([("x:1", 0)] : MessageStore Nat)
        (Except.error "e") =
      ({ status := 400, body := { error := some "Missing 'to' field" } },
       [("x:1", 0)]) ∧
    handleSend (Except.ok { «to» := some "15551234567@s.whatsapp.net" }) true
        "connected" ([("x:1", 0)] : MessageStore Nat) (Except.error "e") =
      ({ status := 400, body := { error := some "Missing 'text' field" } },
       [("x:1", 0)]) ∧
    handleSend
        (Except.ok { «to» := some "15551234567@s.whatsapp.net",
                     text := some "hi" })
        false "disconnected" ([("x:1", 0)] : MessageStore Nat)
        (Except.error "e") =
      ({ status := 500, body := { error := some "Not connected to WhatsApp" } },
       [("x:1", 0)]) :=
  ⟨send_route_validation.1 Nat {} true "connected" [("x:1", 0)]
      (Except.error "e") (by decide),
   send_route_validation.2.1 Nat { «to» := some "15551234567@s.whatsapp.net" }
      true "connected" [("x:1", 0)] (Except.error "e") (by decide) (by decide)
      (by decide),
   send_route_validation.2.2 Nat
      { «to» := some "15551234567@s.whatsapp.net", text := some "hi" } false
      "disconnected" [("x:1", 0)] (Except.error "e") (by decide)
      (Or.inr (by decide)) (Or.inr (by decide))⟩

/-- Claim C9: an erroring send leaves the retransmission store unchanged —
when the session is not connected both send helpers refuse without touching
the store, and when the library's send throws the store is returned as it
was; content is stored only on a successful send whose result carries a
key. -/
theorem send_failure_store_unchanged :
    (∀ (α : Type) (sockPresent : Bool) (connectionStatus : String)
        (store : MessageStore α) (oracle : SendOracle α),
      (¬ sockPresent = true ∨ connectionStatus ≠ "connected") →
      sendMessage sockPresent connectionStatus store oracle =
          ({ error := some "Not connected to WhatsApp" }, store) ∧
        sendMedia sockPresent connectionStatus store oracle =
          ({ error := some "Not connected to WhatsApp" }, store)) ∧
    (∀ (α : Type) (store : MessageStore α) (e : String),
      sendMessage true "connected" store (Except.error e) =
          ({ error := some e }, store) ∧
        sendMedia true "connected" store (Except.error e) =
          ({ error := some e }, store)) ∧
    (∀ (α : Type) (store : MessageStore α)
        (result : Option (LibSendResult α)),
      result.bind LibSendResult.key = none →
      (sendMessage true "connected" store (Except.ok result)).2 = store ∧
        (sendMedia true "connected" store (Except.ok result)).2 = store) ∧
    (∀ (α : Type) (store : MessageStore α) (r : LibSendResult α)
        (k : SentKey),
      r.key = some k →
      (sendMessage true "connected" store (Except.ok (some r))).2 =
        storeMessage store ⟨k.remoteJid, true, none, k.id⟩ r.message) := by
  refine ⟨?_, ?_, ?_, ?_⟩
  · intro α sockPresent connectionStatus store oracle h
    exact ⟨sendMessage_not_connected _ _ _ _ h,
           sendMedia_not_connected _ _ _ _ h⟩
  · intro α store e
    exact ⟨by simp [sendMessage, completeSend], by simp [sendMedia, completeSend]⟩
  · intro α store result h
    rcases result with _ | r
    · exact ⟨by simp [sendMessage, completeSend], by simp [sendMedia, completeSend]⟩
    · have h' : r.key = none := h
      exact ⟨by simp [sendMessage, completeSend, h'],
             by simp [sendMedia, completeSend, h']⟩
  · intro α store r k h
    simp [sendMessage, completeSend, h]

/-- Claim C9 witness: concrete refused, thrown, keyless and keyed sends. -/
theorem send_failure_store_unchanged_witness :
    sendMessage false "disconnected" ([("x:1", 0)] : MessageStore Nat)
        (Except.error "boom") =
      ({ error := some "Not connected to WhatsApp" }, [("x:1", 0)]) ∧
    sendMessage true "connected" ([("x:1", 0)] : MessageStore Nat)
        (Except.error "boom") = ({ error := some "boom" }, [("x:1", 0)]) ∧
    (sendMessage true "connected" ([("x:1", 0)] : MessageStore Nat)
        (Except.ok (some ⟨none, 9⟩))).2 = [("x:1", 0)] ∧
    (sendMessage true "connected" ([("x:1", 0)] : MessageStore Nat)
        (Except.ok (some ⟨some ⟨some "j", some "id1"⟩, 9⟩))).2 =
      storeMessage [("x:1", 0)] ⟨some "j", true, none, some "id1"⟩ 9 :=
  ⟨(send_failure_store_unchanged.1 Nat false "disconnected" [("x:1", 0)]
      (Except.error "boom") (Or.inl (by decide))).1,
   (send_failure_store_unchanged.2.1 Nat [("x:1", 0)] "boom").1,
   (send_failure_store_unchanged.2.2.1 Nat [("x:1", 0)] (some ⟨none, 9⟩)
      rfl).1,
   send_failure_store_unchanged.2.2.2 Nat [("x:1", 0)]
      ⟨some ⟨some "j", some "id1"⟩, 9⟩ ⟨some "j", some "id1"⟩ rfl⟩

/-- Claim C10: a non-empty body that does not parse as JSON yields 400 with
error "Invalid JSON" on both POST /send and POST /resolve-numbers, leaving
the stores unchanged; an empty body resolves to the empty object and falls
through to field validation — 400 "Missing 'to' field" on /send and 400
"Missing 'phones' array" on /resolve-numbers. -/
theorem invalid_json_and_empty_body :
    (∀ (α : Type) (body : String) (parse : String → Option SendBody)
        (sockPresent : Bool) (connectionStatus : String)
        (store : MessageStore α) (oracle : SendOracle α),
      body ≠ "" → parse body = none →
      handleSend (parseBody {} parse body) sockPresent connectionStatus
          store oracle =
        ({ status := 400, body := { error := some "Invalid JSON" } },
         store)) ∧
    (∀ (body : String) (parse : String → Option PhonesField)
        (sockPresent : Bool) (connectionStatus : String) (m : LidMap)
        (oracle : WaOracle),
      body ≠ "" → parse body = none →
      handleResolveNumbers (parseBody PhonesField.absent parse body)
          sockPresent connectionStatus m oracle =
        { status := 400, body := ResolveRespBody.errorResp "Invalid JSON",
          lidToPhone := m, saveScheduled := false }) ∧
    (∀ (α : Type) (parse : String → Option SendBody) (sockPresent : Bool)
        (connectionStatus : String) (store : MessageStore α)
        (oracle : SendOracle α),
      handleSend (parseBody {} parse "") sockPresent connectionStatus store
          oracle =
        ({ status := 400, body := { error := some "Missing 'to' field" } },
         store)) ∧
    (∀ (parse : String → Option PhonesField) (sockPresent : Bool)
        (connectionStatus : String) (m : LidMap) (oracle : WaOracle),
      handleResolveNumbers (parseBody PhonesField.absent parse "")
          sockPresent connectionStatus m oracle =
        { status := 400,
          body := ResolveRespBody.errorResp "Missing 'phones' array",
          lidToPhone := m, saveScheduled := false }) := by
  refine ⟨?_, ?_, ?_, ?_⟩
  · intro α body parse sockPresent connectionStatus store oracle h1 h2
    simp [parseBody, h1, h2, handleSend]
  · intro body parse sockPresent connectionStatus m oracle h1 h2
    simp [parseBody, h1, h2, handleResolveNumbers]
  · intro α parse sockPresent connectionStatus store oracle
    rfl
  · intro parse sockPresent connectionStatus m oracle
    rfl

/-- Claim C10 witness: a concrete malformed body "{bad" and the empty body
on both routes. -/
theorem invalid_json_and_empty_body_witness :
    handleSend (parseBody {} (fun _ => none) "bad") true "connected"
        ([] : MessageStore Nat) (Except.error "e") =
      ({ status := 400, body := { error := some "Invalid JSON" } }, []) ∧
    handleResolveNumbers (parseBody PhonesField.absent (fun _ => none) "bad")
        true "connected" [] (fun _ => Except.ok none) =
      { status := 400, body := ResolveRespBody.errorResp "Invalid JSON",
        lidToPhone := [], saveScheduled := false } ∧
    handleSend (parseBody {} (fun _ => none) "") true "connected"
        ([] : MessageStore Nat) (Except.error "e") =
      ({ status := 400, body := { error := some "Missing 'to' field" } },
       []) ∧
    handleResolveNumbers (parseBody PhonesField.absent (fun _ => none) "")
        true "connected" [] (fun _ => Except.ok none) =
      { status := 400,
        body := ResolveRespBody.errorResp "Missing 'phones' array",
        lidToPhone := [], saveScheduled := false } :=
  ⟨invalid_json_and_empty_body.1 Nat "bad" (fun _ => none) true "connected"
      [] (Except.error "e") (by decide) rfl,
   invalid_json_and_empty_body.2.1 "bad" (fun _ => none) true "connected" []
      (fun _ => Except.ok none) (by decide) rfl,
   invalid_json_and_empty_body.2.2.1 Nat (fun _ => none) true "connected" []
      (Except.error "e"),
   invalid_json_and_empty_body.2.2.2 (fun _ => none) true "connected" []
      (fun _ => Except.ok none)⟩



theorem resolveStep_results (oracle : WaOracle)
    (acc : List (String × PhoneRes) × LidMap × Nat) (p : String) :
    (resolveStep oracle acc p).1 = objSet acc.1 p (perPhoneResult (oracle p)) := by
  obtain ⟨results, m, n⟩ := acc
  rcases ho : oracle p with e | jids
  · simp [resolveStep, perPhoneResult, ho]
  · rcases jids with _ | l
    · simp [resolveStep, perPhoneResult, ho]
    · rcases l with _ | ⟨j, js⟩
      · simp [resolveStep, perPhoneResult, ho]
      · by_cases he : j.existsFlag = true
        · simp only [resolveStep, ho, he, if_true]
          split <;> simp [perPhoneResult, ho, he]
        · simp [resolveStep, perPhoneResult, ho, he]

theorem resolveLoop_results (oracle : WaOracle) (phones : List String) :
    ∀ (results : List (String × PhoneRes)) (m : LidMap) (n : Nat),
      (phones.foldl (resolveStep oracle) (results, m, n)).1 =
        specIndependentResults oracle phones results := by
  induction phones with
  | nil => intro results m n; rfl
  | cons p ps ih =>
      intro results m n
      rcases hstep : resolveStep oracle (results, m, n) p with ⟨r1, m1, n1⟩
      have hr : r1 = objSet results p (perPhoneResult (oracle p)) := by
        have hx := resolveStep_results oracle (results, m, n) p
        rw [hstep] at hx
        exact hx
      rw [List.foldl_cons, hstep]
      rw [show specIndependentResults oracle (p :: ps) results =
          specIndependentResults oracle ps
            (objSet results p (perPhoneResult (oracle p))) from rfl]
      rw [← hr]
      exact ih r1 m1 n1

/-- Claim C7: the webhook dispatcher issues a single POST whose JSON body
is exactly the WebhookEvent fields; the emitted event's from_lid is the
raw identifier exactly when the chat JID is LID-form and the empty string
otherwise; with no webhook URL configured nothing is emitted; the
X-Webhook-Secret header is present iff API_KEY is truthy; and the delivery
callbacks only log — an error status or transport error logs, success does
nothing, nothing retries or raises. -/
theorem webhook_delivery_contract :
    (∀ (apiKey : String) (payload : WebhookEvent),
      sendWebhook apiKey payload =
          { method := "POST", contentType := "application/json",
            secretHeader := if apiKey ≠ "" then some apiKey else none,
            payload := payload } ∧
        ((sendWebhook apiKey payload).secretHeader.isSome ↔ apiKey ≠ "")) ∧
    (∀ (env : Env) (msg : InboundMsg) (ev : WebhookEvent) (m : LidMap)
        (s : Bool),
      processMessage env msg = (some ev, m, s) →
      ev.from_lid =
        (if jsEndsWith (jsOr msg.key.remoteJid "") "@lid" = true then
          jidLocal (jsOr msg.key.remoteJid "") else "")) ∧
    (∀ (env : Env) (msg : InboundMsg),
      env.webhookUrl = "" → (processMessage env msg).1 = none) ∧
    (∀ (statusCode : Nat) (data : String),
      (400 ≤ statusCode →
        onWebhookResponse statusCode data =
          DeliveryAction.logError
            ("Webhook failed: HTTP " ++ toString statusCode ++ " " ++
              jsTake data 200)) ∧
      (statusCode < 400 →
        onWebhookResponse statusCode data = DeliveryAction.nothing)) ∧
    (∀ (e : String),
      onWebhookError e = DeliveryAction.logError ("Webhook error: " ++ e)) := by
  refine ⟨?_, ?_, ?_, ?_, ?_⟩
  · intro apiKey payload
    exact ⟨rfl, by by_cases h : apiKey = "" <;> simp [sendWebhook, h]⟩
  · intro env msg ev m s h
    simp only [processMessage] at h
    by_cases h1 : msg.key.fromMe ∧ ¬ isSelfChat env msg
    · rw [if_pos h1] at h
      simp at h
    · rw [if_neg h1] at h
      by_cases h2 : textOf msg = ""
      · rw [if_pos h2] at h
        simp at h
      · rw [if_neg h2] at h
        by_cases h3 : env.webhookUrl ≠ ""
        · rw [if_pos h3] at h
          simp only [Prod.mk.injEq, Option.some.injEq] at h
          rw [← h.1]
        · rw [if_neg h3] at h
          simp at h
  · intro env msg h
    simp only [processMessage, h]
    split
    · rfl
    · split
      · rfl
      · rw [if_neg (by simp)]
  · intro statusCode data
    constructor
    · intro h
      simp [onWebhookResponse, h]
    · intro h
      simp only [onWebhookResponse]
      rw [if_neg (by omega)]
  · intro e
    rfl

/-- Claim C7 witness: concrete exercises of the secret-header iff, the
from_lid projection of an emitted event, the no-URL no-op, and the
log-only response handling for statuses 500 and 200. -/
theorem webhook_delivery_contract_witness :
    (sendWebhook "sek" ⟨"1", "", "1@x", "1@x", "", "hi", "i"⟩).secretHeader.isSome ∧
    (⟨"42", "42", "42@lid", "42@lid", "", "yo", "I"⟩ : WebhookEvent).from_lid =
      (if jsEndsWith (jsOr (some "42@lid") "") "@lid" = true then
        jidLocal (jsOr (some "42@lid") "") else "") ∧
    (processMessage ⟨"p", [], [], [], ""⟩
        ⟨⟨some "42@lid", false, none, some "I"⟩, some ⟨some "yo", none⟩,
          none⟩).1 = none ∧
    onWebhookResponse 500 "oops" =
      DeliveryAction.logError
        ("Webhook failed: HTTP " ++ toString 500 ++ " " ++ jsTake "oops" 200) ∧
    onWebhookResponse 200 "ok" = DeliveryAction.nothing :=
  ⟨((webhook_delivery_contract.1 "sek"
      ⟨"1", "", "1@x", "1@x", "", "hi", "i"⟩).2).mpr (by decide),
   webhook_delivery_contract.2.1 ⟨"p", [], [], [], "http://h"⟩
      ⟨⟨some "42@lid", false, none, some "I"⟩, some ⟨some "yo", none⟩, none⟩
      ⟨"42", "42", "42@lid", "42@lid", "", "yo", "I"⟩ [] false (by decide),
   webhook_delivery_contract.2.2.1 ⟨"p", [], [], [], ""⟩
      ⟨⟨some "42@lid", false, none, some "I"⟩, some ⟨some "yo", none⟩, none⟩
      rfl,
   (webhook_delivery_contract.2.2.2.1 500 "oops").1 (by decide),
   (webhook_delivery_contract.2.2.2.1 200 "ok").2 (by decide)⟩

/-- Claim C8: POST /resolve-numbers answers 400 "Missing 'phones' array"
when the phones field is missing, not an array or an empty array; 503 "Not
connected to WhatsApp" on a nonempty array while not connected (LID table
untouched in both cases); and when connected it answers 200 with a results
object mapping each phone independently to the outcome of its own lookup
({jid, isLid}, {jid: null}, or a per-phone {error}) together with the
total_mappings count of the updated table. -/
theorem resolve_numbers_route :
    (∀ (f : PhonesField) (sockPresent : Bool) (connectionStatus : String)
        (m : LidMap) (oracle : WaOracle),
      phonesOf f = none ∨ phonesOf f = some [] →
      handleResolveNumbers (Except.ok f) sockPresent connectionStatus m
          oracle =
        { status := 400,
          body := ResolveRespBody.errorResp "Missing 'phones' array",
          lidToPhone := m, saveScheduled := false }) ∧
    (∀ (phones : List String) (sockPresent : Bool)
        (connectionStatus : String) (m : LidMap) (oracle : WaOracle),
      phones ≠ [] →
      (¬ sockPresent = true ∨ connectionStatus ≠ "connected") →
      handleResolveNumbers (Except.ok (PhonesField.arr phones)) sockPresent
          connectionStatus m oracle =
        { status := 503,
          body := ResolveRespBody.errorResp "Not connected to WhatsApp",
          lidToPhone := m, saveScheduled := false }) ∧
    (∀ (phones : List String) (m : LidMap) (oracle : WaOracle),
      phones ≠ [] →
      (handleResolveNumbers (Except.ok (PhonesField.arr phones)) true
          "connected" m oracle).status = 200 ∧
        (handleResolveNumbers (Except.ok (PhonesField.arr phones)) true
            "connected" m oracle).body =
          ResolveRespBody.okResp (specIndependentResults oracle phones [])
            (handleResolveNumbers (Except.ok (PhonesField.arr phones)) true
                "connected" m oracle).lidToPhone.length) := by
  refine ⟨?_, ?_, ?_⟩
  · intro f sockPresent connectionStatus m oracle h
    rcases h with h | h <;> simp [handleResolveNumbers, h]
  · intro phones sockPresent connectionStatus m oracle hne hg
    simp only [handleResolveNumbers, phonesOf]
    rw [if_neg (by simpa using hne), if_pos hg]
  · intro phones m oracle hne
    rcases hf : phones.foldl (resolveStep oracle) ([], m, 0) with ⟨results, m1, nM⟩
    have hr : results = specIndependentResults oracle phones [] := by
      have hx := resolveLoop_results oracle phones [] m 0
      rw [hf] at hx
      simpa using hx
    simp only [handleResolveNumbers, phonesOf]
    rw [if_neg (by simpa using hne), if_neg (by simp), hf, hr]
    exact ⟨rfl, rfl⟩

/-- Claim C8 witness: a missing field, a non-array field, an empty array,
a nonempty request while disconnected, and a nonempty request while
connected against a concrete lookup oracle. -/
theorem resolve_numbers_route_witness :
    handleResolveNumbers (Except.ok PhonesField.other) true "connected" []
        (fun _ => Except.ok none) =
      { status := 400,
        body := ResolveRespBody.errorResp "Missing 'phones' array",
        lidToPhone := [], saveScheduled := false } ∧
    handleResolveNumbers (Except.ok (PhonesField.arr [])) true "connected"
        [] (fun _ => Except.ok none) =
      { status := 400,
        body := ResolveRespBody.errorResp "Missing 'phones' array",
        lidToPhone := [], saveScheduled := false } ∧
    handleResolveNumbers (Except.ok (PhonesField.arr ["5551"])) false
        "disconnected" [] (fun _ => Except.ok none) =
      { status := 503,
        body := ResolveRespBody.errorResp "Not connected to WhatsApp",
        lidToPhone := [], saveScheduled := false } ∧
    (handleResolveNumbers (Except.ok (PhonesField.arr ["5551"])) true
        "connected" []
        (fun _ => Except.ok (some [⟨true, "7@lid"⟩]))).status = 200 ∧
    (handleResolveNumbers (Except.ok (PhonesField.arr ["5551"])) true
        "connected" []
        (fun _ => Except.ok (some [⟨true, "7@lid"⟩]))).body =
      ResolveRespBody.okResp
        (specIndependentResults (fun _ => Except.ok (some [⟨true, "7@lid"⟩]))
          ["5551"] [])
        (handleResolveNumbers (Except.ok (PhonesField.arr ["5551"])) true
            "connected" []
            (fun _ => Except.ok (some [⟨true, "7@lid"⟩]))).lidToPhone.length :=
  ⟨resolve_numbers_route.1 PhonesField.other true "connected" []
      (fun _ => Except.ok none) (Or.inl rfl),
   resolve_numbers_route.1 (PhonesField.arr []) true "connected" []
      (fun _ => Except.ok none) (Or.inr rfl),
   resolve_numbers_route.2.1 ["5551"] false "disconnected" []
      (fun _ => Except.ok none) (by decide) (Or.inl (by decide)),
   (resolve_numbers_route.2.2 ["5551"] []
      (fun _ => Except.ok (some [⟨true, "7@lid"⟩])) (by decide)).1,
   (resolve_numbers_route.2.2 ["5551"] []
      (fun _ => Except.ok (some [⟨true, "7@lid"⟩])) (by decide)).2⟩


end Bridge
